import Mathlib

/-!
Verification development for the nyc-subway-delay-prediction repository.

Shallow embedding conventions:
* timestamps are UTC epoch seconds modelled as `Int`;
* nullable SQL/text columns are `Option String`;
* counts are `Nat`;
* a pandas NaN produced by an empty rolling window is `Option.none`;
* fallible Python functions (raise) are `Except`/`Option`.
-/

/-- RawEvent: one row of the append-only raw-event table, as written by
`insert_raw_events` and read by `upsert_facts` (ingestion/ingest.py,
aggregation/aggregate.py).  Only the columns the aggregator touches are kept:
`feed_type`, `event_ts`, `line_id`, `stop_id`. -/
structure RawEvent where
  feed_type : String
  event_ts : Int
  line_id : Option String
  stop_id : Option String
deriving DecidableEq, Repr

/-- FactData: the data columns of one `mta.station_minute_facts` row — the
unique key (bucket_start, bucket_size_seconds, line_id, stop_id) plus the four
count columns (aggregation/aggregate.py INSERT column list). -/
structure FactData where
  bucket_start : Int
  bucket_size_seconds : Int
  line_id : Option String
  stop_id : Option String
  alerts_count : Nat
  major_alerts_count : Nat
  trip_updates_count : Nat
  vehicle_positions_count : Nat
deriving DecidableEq, Repr

/-- Fact: a stored BucketFact row: its data columns plus the `created_at`
timestamp that the upsert statement sets to `now()` on insert and on conflict
(aggregation/aggregate.py, `created_at=now()`). -/
structure FactRow where
  data : FactData
  created_at : Int
deriving DecidableEq, Repr

/-- Key of a fact row: the unique-constraint tuple
(bucket_start, bucket_size_seconds, line_id, stop_id). -/
def FactData.key (f : FactData) : Int × Int × Option String × Option String :=
  (f.bucket_start, f.bucket_size_seconds, f.line_id, f.stop_id)

/-- Bucket-floor function selected by `upsert_facts` from
`bucket_size_seconds`: `date_trunc('minute', event_ts)` for 60 (per-minute
truncation) and `date_bin('5 minutes', event_ts, epoch)` for 300 (alignment to
5-minute boundaries anchored at the Unix epoch); any other width yields no
function (the Python code raises ValueError there). -/
def bucketFn (bucket_size_seconds : Int) : Option (Int → Int) :=
  if bucket_size_seconds = 60 then some (fun ts => 60 * Int.fdiv ts 60)
  else if bucket_size_seconds = 300 then some (fun ts => 300 * Int.fdiv ts 300)
  else none

/-- Events selected by the aggregation query's WHERE clause:
`event_ts >= now() - INTERVAL 'window_minutes minutes'`.  Note the SQL has no
upper bound on `event_ts`. -/
def eligibleEvents (window_minutes now : Int) (events : List RawEvent) :
    List RawEvent :=
  events.filter (fun e => decide (now - 60 * window_minutes ≤ e.event_ts))

/-- Count of events of one feed type, embedding
`COUNT(*) FILTER (WHERE feed_type='...')`. -/
def countFeed (evs : List RawEvent) (fty : String) : Nat :=
  (evs.filter (fun e => e.feed_type = fty)).length

/-- Group rows produced by the aggregation SELECT:
GROUP BY (bucket_start, line_id, stop_id) over the eligible events, one
FactData per distinct group key, with the per-group FILTER counts and
`major_alerts_count` hard-coded to 0.  No group is excluded, in particular not
the group whose line_id and stop_id are both null. -/
def computeRows (bucket_size_seconds : Int) (floor : Int → Int)
    (window_minutes now : Int) (events : List RawEvent) : List FactData :=
  let elig := eligibleEvents window_minutes now events
  let keys := (elig.map (fun e => (floor e.event_ts, e.line_id, e.stop_id))).dedup
  keys.map (fun k =>
    let grp := elig.filter (fun e =>
      decide (floor e.event_ts = k.1) && decide (e.line_id = k.2.1) &&
      decide (e.stop_id = k.2.2))
    { bucket_start := k.1
      bucket_size_seconds := bucket_size_seconds
      line_id := k.2.1
      stop_id := k.2.2
      alerts_count := countFeed grp "service_alerts"
      major_alerts_count := 0
      trip_updates_count := countFeed grp "trip_updates"
      vehicle_positions_count := countFeed grp "vehicle_positions" })

/-- True when two stored rows collide on the unique constraint
(bucket_start, bucket_size_seconds, line_id, stop_id).  Modelled from the
spec: the table DDL is external to the repository; the spec declares a unique
constraint on this tuple with upsert-on-conflict semantics, nulls compared as
ordinary key values. -/
def sameKey (f g : FactRow) : Bool := decide (f.data.key = g.data.key)

/-- Effect of `ON CONFLICT ... DO UPDATE SET`: the conflicting stored row
keeps its identity but has all four count fields and `created_at` overwritten
from the excluded (freshly computed) row. -/
def overwriteCounts (f row : FactRow) : FactRow :=
  { f with
    data := { f.data with
      alerts_count := row.data.alerts_count
      major_alerts_count := row.data.major_alerts_count
      trip_updates_count := row.data.trip_updates_count
      vehicle_positions_count := row.data.vehicle_positions_count }
    created_at := row.created_at }

/-- Upsert of a single computed row into the store: overwrite on key conflict,
append otherwise. -/
def upsertOne (st : List FactRow) (row : FactRow) : List FactRow :=
  if st.any (fun f => sameKey f row) then
    st.map (fun f => if sameKey f row then overwriteCounts f row else f)
  else st ++ [row]

/-- Upsert of all computed rows, in order. -/
def applyUpsert (st : List FactRow) (rows : List FactRow) : List FactRow :=
  rows.foldl upsertOne st

/-- Embedding of `upsert_facts(bucket_size_seconds, window_minutes)`.  The
store and the raw-event table are explicit arguments; `now` stands for the
transaction timestamp `now()` used both in the lookback WHERE clause and for
`created_at`.  A bucket width other than 60 or 300 raises ValueError before
any store interaction; otherwise the computed group rows are upserted. -/
def upsert_facts (bucket_size_seconds window_minutes now : Int)
    (events : List RawEvent) (store : List FactRow) : Except String (List FactRow) :=
  match bucketFn bucket_size_seconds with
  | none => .error "Unsupported bucket_size_seconds. Must be 60 or 300."
  | some floor =>
      .ok (applyUpsert store
        ((computeRows bucket_size_seconds floor window_minutes now events).map
          (fun d => { data := d, created_at := now })))

/-- Filtering steps of `load_facts` (dataset/build.py): keep only
`bucket_size_seconds = 60` rows (the SQL WHERE clause) and drop rows where
both `line_id` and `stop_id` are null.  The SQL ORDER BY only fixes row order,
which none of the definitions below depend on, so it is not modelled. -/
def load_facts (rows : List FactData) : List FactData :=
  (rows.filter (fun r => decide (r.bucket_size_seconds = 60))).filter
    (fun r => !(decide (r.line_id = none) && decide (r.stop_id = none)))

/-- True when two corpus rows belong to the same (line_id, stop_id) group,
the grouping key of `groupby(['line_id', 'stop_id'], dropna=False)`. -/
def sameStation (a b : FactData) : Bool :=
  decide (a.line_id = b.line_id) && decide (a.stop_id = b.stop_id)

/-- Rolling sum as pandas computes it in `create_features`:
`rolling(window, closed='left').sum()` over a time index.  For the row at
time t the window covers the group's rows with bucket_start in the
left-closed, right-open interval from t - window to t (the row itself is
excluded); an empty window yields NaN (here: none), since min_periods
defaults to 1 for offset windows. -/
def rollingLeftSum (window : Int) (count : FactData → Nat)
    (group : List FactData) (t : Int) : Option Nat :=
  let win := group.filter (fun s =>
    decide (t - window ≤ s.bucket_start) && decide (s.bucket_start < t))
  if win.isEmpty then none else some (win.map count).sum

/-- Hour of day (0-23) of an epoch-second timestamp in UTC, as
`bucket_start.dt.hour` and `bucket_start.hour` compute it. -/
def hourOfDay (t : Int) : Int := (Int.fdiv t 3600).emod 24

/-- Day of week with Monday = 0, as `dt.dayofweek` and `weekday()` compute
it; the Unix epoch 1970-01-01 was a Thursday (= 3). -/
def dayOfWeek (t : Int) : Int := (Int.fdiv t 86400 + 3).emod 7

/-- Twelve feature values computed by the batch path `create_features` for
one corpus row.  The six rolling sums are Option-valued because pandas
produces NaN on an empty window. -/
structure BatchFeatures where
  alerts_count : Nat
  major_alerts_count : Nat
  trip_updates_count : Nat
  vehicle_positions_count : Nat
  hour_of_day : Int
  day_of_week : Int
  alerts_sum_15m : Option Nat
  trip_updates_sum_15m : Option Nat
  vehicle_positions_sum_15m : Option Nat
  alerts_sum_60m : Option Nat
  trip_updates_sum_60m : Option Nat
  vehicle_positions_sum_60m : Option Nat
deriving DecidableEq, Repr

/-- Embedding of `create_features` (dataset/build.py) at one row r of the
corpus df: the four instantaneous counts are the row's own columns, the two
calendar features come from its bucket_start, and the six rolling sums are
pandas `rolling(window, closed='left').sum()` within the row's
(line_id, stop_id) group. -/
def create_features_row (df : List FactData) (r : FactData) : BatchFeatures :=
  let group := df.filter (fun s => sameStation s r)
  { alerts_count := r.alerts_count
    major_alerts_count := r.major_alerts_count
    trip_updates_count := r.trip_updates_count
    vehicle_positions_count := r.vehicle_positions_count
    hour_of_day := hourOfDay r.bucket_start
    day_of_week := dayOfWeek r.bucket_start
    alerts_sum_15m := rollingLeftSum 900 FactData.alerts_count group r.bucket_start
    trip_updates_sum_15m :=
      rollingLeftSum 900 FactData.trip_updates_count group r.bucket_start
    vehicle_positions_sum_15m :=
      rollingLeftSum 900 FactData.vehicle_positions_count group r.bucket_start
    alerts_sum_60m := rollingLeftSum 3600 FactData.alerts_count group r.bucket_start
    trip_updates_sum_60m :=
      rollingLeftSum 3600 FactData.trip_updates_count group r.bucket_start
    vehicle_positions_sum_60m :=
      rollingLeftSum 3600 FactData.vehicle_positions_count group r.bucket_start }

/-- Twelve feature values computed by the online path; all integers, since
the SQL sums are wrapped in COALESCE(..., 0). -/
structure OnlineFeatures where
  alerts_count : Nat
  major_alerts_count : Nat
  trip_updates_count : Nat
  vehicle_positions_count : Nat
  hour_of_day : Int
  day_of_week : Int
  alerts_sum_15m : Nat
  trip_updates_sum_15m : Nat
  vehicle_positions_sum_15m : Nat
  alerts_sum_60m : Nat
  trip_updates_sum_60m : Nat
  vehicle_positions_sum_60m : Nat
deriving DecidableEq, Repr

/-- Rows of the store matching an online station query:
`line_id = %s AND stop_id = %s AND bucket_size_seconds = 60`. -/
def stationRows (store : List FactData) (line_id stop_id : String) :
    List FactData :=
  store.filter (fun f =>
    decide (f.line_id = some line_id) && decide (f.stop_id = some stop_id) &&
    decide (f.bucket_size_seconds = 60))

/-- Row returned by `ORDER BY bucket_start DESC LIMIT 1`: a row of maximal
bucket_start among the station's rows, none when the station has no data. -/
def latestRow (store : List FactData) (line_id stop_id : String) :
    Option FactData :=
  (stationRows store line_id stop_id).foldl
    (fun acc f => match acc with
      | none => some f
      | some g => if g.bucket_start < f.bucket_start then some f else some g)
    none

/-- Online rolling sum: COALESCE(SUM(count), 0) over the station's rows with
`bucket_start > as_of - window AND bucket_start <= as_of`. -/
def onlineWindowSum (window : Int) (count : FactData → Nat)
    (store : List FactData) (line_id stop_id : String) (asOf : Int) : Nat :=
  (((stationRows store line_id stop_id).filter (fun s =>
    decide (asOf - window < s.bucket_start) &&
    decide (s.bucket_start ≤ asOf))).map count).sum

/-- Embedding of `compute_features_online` (serving/features_online.py):
locate the latest 60-second bucket for the station (ValueError — here none —
when absent), take the four counts from that row, the calendar features from
its bucket_start, and the six rolling sums over the left-open right-closed
window ending at that bucket_start. -/
def compute_features_online (store : List FactData)
    (line_id stop_id : String) : Option (OnlineFeatures × Int) :=
  match latestRow store line_id stop_id with
  | none => none
  | some latest =>
      let asOf := latest.bucket_start
      some
        ({ alerts_count := latest.alerts_count
           major_alerts_count := latest.major_alerts_count
           trip_updates_count := latest.trip_updates_count
           vehicle_positions_count := latest.vehicle_positions_count
           hour_of_day := hourOfDay asOf
           day_of_week := dayOfWeek asOf
           alerts_sum_15m :=
             onlineWindowSum 900 FactData.alerts_count store line_id stop_id asOf
           trip_updates_sum_15m :=
             onlineWindowSum 900 FactData.trip_updates_count store line_id stop_id asOf
           vehicle_positions_sum_15m :=
             onlineWindowSum 900 FactData.vehicle_positions_count store line_id stop_id asOf
           alerts_sum_60m :=
             onlineWindowSum 3600 FactData.alerts_count store line_id stop_id asOf
           trip_updates_sum_60m :=
             onlineWindowSum 3600 FactData.trip_updates_count store line_id stop_id asOf
           vehicle_positions_sum_60m :=
             onlineWindowSum 3600 FactData.vehicle_positions_count store line_id stop_id asOf },
         asOf)

/-- Label of one row r, embedding the inner loop of `create_label`
(dataset/build.py): within r's (line_id, stop_id) group, take the rows with
alerts_count > 0 and keep those with bucket_start in (t, t + 15 minutes];
label 1 when any remain, else 0. -/
def create_label_row (df : List FactData) (r : FactData) : Nat :=
  let group := df.filter (fun s => sameStation s r)
  let alertRows := group.filter (fun s => decide (0 < s.alerts_count))
  let future := alertRows.filter (fun s =>
    decide (r.bucket_start < s.bucket_start) &&
    decide (s.bucket_start ≤ r.bucket_start + 900))
  if future.isEmpty then 0 else 1

/-- Labels of all corpus rows.  The sort in `create_label` only changes the
order in which rows are visited; each row's label depends only on the row and
its group, as computed by create_label_row. -/
def create_label (df : List FactData) : List Nat :=
  df.map (create_label_row df)

/-- Columns excluded from the feature set by `get_feature_columns`
(training/train.py). -/
def exclude_cols : List String :=
  ["fact_id", "bucket_start", "bucket_size_seconds",
   "line_id", "stop_id", "created_at", "label"]

/-- Embedding of `get_feature_columns(df)`: the dataframe's columns, in
dataframe order, with the identifier and label columns removed. -/
def get_feature_columns (columns : List String) : List String :=
  columns.filter (fun c => !(exclude_cols.contains c))

/-- Columns of the feature-augmented training dataframe, in order.  Modelled
from the spec: the DDL of mta.station_minute_facts is not in the repository;
its column order is taken from the spec's BucketFact field list together with
the fact_id and created_at columns referenced by the code (fact_id precedes
the data columns, created_at follows them).  load_facts reads SELECT *,
create_features appends hour_of_day, day_of_week, then the six rolling
columns in dict-insertion order, with bucket_start moved to the front by
reset_index, and create_label appends label. -/
def datasetColumns : List String :=
  ["bucket_start", "fact_id", "bucket_size_seconds", "line_id", "stop_id",
   "alerts_count", "major_alerts_count", "trip_updates_count",
   "vehicle_positions_count", "created_at",
   "hour_of_day", "day_of_week",
   "alerts_sum_15m", "trip_updates_sum_15m", "vehicle_positions_sum_15m",
   "alerts_sum_60m", "trip_updates_sum_60m", "vehicle_positions_sum_60m",
   "label"]

/-- FEATURE_ORDER from app/main.py: the serving path's fixed key order
(alphabetical). -/
def FEATURE_ORDER : List String :=
  ["alerts_count", "alerts_sum_15m", "alerts_sum_60m",
   "day_of_week", "hour_of_day", "major_alerts_count",
   "trip_updates_count", "trip_updates_sum_15m", "trip_updates_sum_60m",
   "vehicle_positions_count", "vehicle_positions_sum_15m",
   "vehicle_positions_sum_60m"]

/-- Minimum of a nonempty sample, as numpy's min over e :: es. -/
def sampleMin (e : ℚ) (es : List ℚ) : ℚ := es.foldl min e

/-- Maximum of a nonempty sample, as numpy's max over e :: es. -/
def sampleMax (e : ℚ) (es : List ℚ) : ℚ := es.foldl max e

/-- One bin edge of `np.linspace(lo, hi, bins + 1)`. -/
def binEdge (lo hi : ℚ) (bins i : ℕ) : ℚ := lo + (hi - lo) * i / bins

/-- Histogram counts of `np.histogram(xs, bins=linspace(lo, hi, bins + 1))`:
bin i counts the values in [edge i, edge (i+1)), except that the last bin
also includes its right edge; values outside [lo, hi] are not counted. -/
def histogram (xs : List ℚ) (lo hi : ℚ) (bins : ℕ) : List ℕ :=
  (List.range bins).map (fun i =>
    (xs.filter (fun x =>
      decide (binEdge lo hi bins i ≤ x) &&
      (if i + 1 = bins then decide (x ≤ binEdge lo hi bins (i + 1))
       else decide (x < binEdge lo hi bins (i + 1))))).length)

/-- Outcome of compute_psi.  The final float is
sum over bins of (a - e) * ln(a / e); since ln is transcendental (and the
source value a float), the non-degenerate outcome carries the exact smoothed,
renormalized per-bin fractions (actual_pct, expected_pct) from which that sum
is formed.  nan is the float('nan') outcome and zero the literal 0.0
outcome; neither of those evaluates any histogram or logarithm. -/
inductive PsiOutcome where
  | nan : PsiOutcome
  | zero : PsiOutcome
  | computed : List (ℚ × ℚ) → PsiOutcome
deriving DecidableEq, Repr

/-- Smoothing constant 1e-6 of compute_psi. -/
def psiEpsilon : ℚ := 1 / 1000000

/-- Embedding of `compute_psi(actual_values, expected_values, bins)`
(monitoring/drift.py): NaN when either sample is empty; 0.0 when the
baseline (expected) sample has zero variance (min == max); otherwise
normalized histograms over baseline-spanned equal-width bin edges, plus
epsilon, renormalized. -/
def compute_psi (actual_values expected_values : List ℚ) (bins : ℕ) :
    PsiOutcome :=
  match actual_values, expected_values with
  | _, [] => .nan
  | [], _ => .nan
  | a :: as_, e :: es =>
      let min_val := sampleMin e es
      let max_val := sampleMax e es
      if min_val = max_val then .zero
      else
        let expected_hist := histogram (e :: es) min_val max_val bins
        let actual_hist := histogram (a :: as_) min_val max_val bins
        let expected_total : ℚ := (e :: es).length
        let actual_total : ℚ := (a :: as_).length
        let expected_pct := expected_hist.map (fun c => (c : ℚ) / expected_total + psiEpsilon)
        let actual_pct := actual_hist.map (fun c => (c : ℚ) / actual_total + psiEpsilon)
        let esum := expected_pct.sum
        let asum := actual_pct.sum
        .computed (List.zip (actual_pct.map (fun p => p / asum))
                            (expected_pct.map (fun p => p / esum)))

/-- Status values of the mta.ingest_runs ledger. -/
inductive RunStatus where
  | running : RunStatus
  | success : RunStatus
  | failed : RunStatus
deriving DecidableEq, Repr

/-- State of the run ledger: one status per run, indexed by run_id.  The
database allocates a fresh run_id per INSERT; here the fresh id is the list
index. -/
structure LedgerState where
  runs : List RunStatus
deriving DecidableEq, Repr

/-- Embedding of `start_run`: insert a new run with status 'running' and
return its run_id. -/
def start_run (st : LedgerState) : Nat × LedgerState :=
  (st.runs.length, ⟨st.runs ++ [RunStatus.running]⟩)

/-- Embedding of `finish_run`: update the run's status. -/
def finish_run (st : LedgerState) (run_id : Nat) (status : RunStatus) :
    LedgerState :=
  ⟨st.runs.set run_id status⟩

/-- Status of a run in the ledger. -/
def statusOf (st : LedgerState) (run_id : Nat) : Option RunStatus :=
  st.runs[run_id]?

/-- Environment read by ingest_once: SERVICE_ALERTS_URL and the parsed
REALTIME_FEEDS_URLS list. -/
structure IngestEnv where
  service_alerts_url : Option String
  realtime_urls : List String

/-- Embedding of `ingest_once` (ingestion/ingest.py).  The configuration
checks precede start_run and create no run.  The try-block body — fetching,
parsing and inserting all feeds — performs network and store effects, so it
is abstracted as its given outcome: ok with the total entity count, or error
with the exception message; the control flow around it is the source's:
start_run, then on normal completion finish_run 'success', on any exception
finish_run 'failed' followed by re-raising. -/
def ingest_once (env : IngestEnv) (body : Except String Nat)
    (st : LedgerState) : Except String Nat × LedgerState :=
  if env.service_alerts_url = none then
    (.error "SERVICE_ALERTS_URL environment variable is required", st)
  else if env.realtime_urls = [] then
    (.error "REALTIME_FEEDS_URLS must contain at least one URL", st)
  else
    let (run_id, st1) := start_run st
    match body with
    | .ok n => (.ok n, finish_run st1 run_id .success)
    | .error e => (.error e, finish_run st1 run_id .failed)

/-- One informed-entity item of a service alert; HasField-present optional
string fields are some (possibly the empty string). -/
structure InformedEntity where
  route_id : Option String
  stop_id : Option String
deriving DecidableEq, Repr

/-- Payload of one feed entity: exactly one of the three recognized kinds,
or anything else (silently discarded by parse_feed). -/
inductive EntityPayload where
  | alert (informed_entity : List InformedEntity)
  | trip_update (route_id trip_id : Option String)
      (stop_time_update : List (Option String))
  | vehicle (route_id trip_id stop_id : Option String)
  | unrecognized
deriving DecidableEq, Repr

/-- Identifier fields of the canonical record parse_feed emits. -/
structure ParsedIds where
  line_id : Option String
  stop_id : Option String
  trip_id : Option String
deriving DecidableEq, Repr

/-- First present route_id among an alert's informed entities
(`if line_id is None and informed_entity.HasField("route_id")`). -/
def firstRoute : List InformedEntity → Option String
  | [] => none
  | ie :: rest => match ie.route_id with
      | some r => some r
      | none => firstRoute rest

/-- First present stop_id among an alert's informed entities, found
independently of the route. -/
def firstStop : List InformedEntity → Option String
  | [] => none
  | ie :: rest => match ie.stop_id with
      | some s => some s
      | none => firstStop rest

/-- First stop_time_update that carries a stop_id (the loop breaks at the
first HasField match). -/
def firstStopTime : List (Option String) → Option String
  | [] => none
  | some s :: _ => some s
  | none :: rest => firstStopTime rest

/-- Raw extraction of (line_id, stop_id, trip_id) from one entity payload,
before normalization: the local variables of parse_feed's loop body just
ahead of the append. -/
def extractIds : EntityPayload → Option ParsedIds
  | .alert informed =>
      some { line_id := firstRoute informed, stop_id := firstStop informed,
             trip_id := none }
  | .trip_update route trip stus =>
      some { line_id := route, stop_id := firstStopTime stus, trip_id := trip }
  | .vehicle route trip stop =>
      some { line_id := route, stop_id := stop, trip_id := trip }
  | .unrecognized => none

/-- Python truthiness normalization `x if x else None` applied to an
extracted optional string: both None and the empty string become None. -/
def normalizeId : Option String → Option String
  | none => none
  | some s => if s = "" then none else some s

/-- Identifier fields of the record parse_feed appends for one entity:
the extracted fields, each passed through `x if x else None`; none for an
unrecognized payload (no record is appended). -/
def parse_entity_ids (p : EntityPayload) : Option ParsedIds :=
  (extractIds p).map (fun ids =>
    { line_id := normalizeId ids.line_id
      stop_id := normalizeId ids.stop_id
      trip_id := normalizeId ids.trip_id })

/-- Invariant used for upsert idempotency: the store contains a row with
FactData d's key, and every stored row with that key carries exactly d's
data (key fields and all four counts). -/
def keyFixed (st : List FactRow) (d : FactData) : Prop :=
  (∃ f ∈ st, f.data.key = d.key) ∧ ∀ f ∈ st, f.data.key = d.key → f.data = d

/-- Corpus row for the two-row batch/online comparison: station (A, S1) at
t = 0 with one alert. -/
def c1f0 : FactData := ⟨0, 60, some "A", some "S1", 1, 0, 0, 0⟩

/-- Corpus row for the two-row batch/online comparison: station (A, S1) at
t = 60 with one alert. -/
def c1f1 : FactData := ⟨60, 60, some "A", some "S1", 1, 0, 0, 0⟩

/-- Minute-i row of the 20-minute scenario: one bucket per minute, one alert
only at minute 5. -/
def c2row (i : Nat) : FactData :=
  ⟨60 * (i : Int), 60, some "A", some "S1", if i = 5 then 1 else 0, 0, 0, 0⟩

/-- The 20-minute scenario corpus: minutes 1 through 20. -/
def corpus20 : List FactData := (List.range 20).map (fun i => c2row (i + 1))

/-- Station (A, S1) row at minute m with a given alerts count (label
scenario). -/
def labelRow (m a : Nat) : FactData :=
  ⟨60 * (m : Int), 60, some "A", some "S1", a, 0, 0, 0⟩

/-- Label scenario corpus: buckets at minutes 0, 5, 10, 20 with one alert
only at minute 10. -/
def labelCorpus : List FactData :=
  [labelRow 0 0, labelRow 5 0, labelRow 10 1, labelRow 20 0]

/-- Raw event whose line_id and stop_id are both null. -/
def nullKeyEvent : RawEvent := ⟨"service_alerts", 500, none, none⟩

/-- BucketFact row the aggregator produces from nullKeyEvent at now = 600. -/
def nullKeyFact : FactRow := ⟨⟨480, 60, none, none, 1, 0, 0, 0⟩, 600⟩

/-- Raw event whose event_ts equals the aggregation time now = 600. -/
def eventAtNow : RawEvent := ⟨"service_alerts", 600, some "A", some "S1"⟩

/-- Fact row with a non-null key, used to witness the load_facts filter. -/
def keyedFact : FactData := ⟨0, 60, some "A", some "S1", 0, 0, 0, 0⟩

/-- Trip-update entity payload whose route_id and first stop_id are present
but empty strings. -/
def tuPayload : EntityPayload :=
  .trip_update (some "") (some "T1") [none, some ""]

/-- Identifiers extracted from tuPayload before normalization. -/
def tuRawIds : ParsedIds := ⟨some "", some "", some "T1"⟩

/-- Identifiers parse_feed emits for tuPayload after truthiness
normalization. -/
def tuIds : ParsedIds := ⟨none, none, some "T1"⟩

/-- Raw event used in the idempotency witness. -/
def w6event : RawEvent := ⟨"trip_updates", 950, some "A", some "S1"⟩

lemma sameKey_iff {f g : FactRow} : sameKey f g = true ↔ f.data.key = g.data.key := by
  simp [sameKey]

lemma factData_eq_of_key {f g : FactData} (hk : f.key = g.key)
    (ha : f.alerts_count = g.alerts_count)
    (hm : f.major_alerts_count = g.major_alerts_count)
    (ht : f.trip_updates_count = g.trip_updates_count)
    (hv : f.vehicle_positions_count = g.vehicle_positions_count) : f = g := by
  cases f; cases g
  simp only [FactData.key, Prod.mk.injEq] at hk
  simp_all

lemma overwriteCounts_data {f row : FactRow} (h : sameKey f row = true) :
    (overwriteCounts f row).data = row.data := by
  have hk : f.data.key = row.data.key := sameKey_iff.mp h
  exact factData_eq_of_key hk rfl rfl rfl rfl

lemma upsertOne_keyFixed (st : List FactRow) (row : FactRow) :
    keyFixed (upsertOne st row) row.data := by
  unfold upsertOne
  by_cases h : st.any (fun f => sameKey f row) = true
  · rw [if_pos h]
    obtain ⟨f, hf, hsk⟩ := List.any_eq_true.mp h
    constructor
    · refine ⟨overwriteCounts f row, ?_, ?_⟩
      · have := List.mem_map_of_mem
          (fun f => if sameKey f row then overwriteCounts f row else f) hf
        simpa [hsk] using this
      · rw [overwriteCounts_data hsk]
    · intro g hg hk
      obtain ⟨f', hf', him⟩ := List.mem_map.mp hg
      by_cases hsk' : sameKey f' row = true
      · rw [if_pos hsk'] at him
        rw [← him]
        exact overwriteCounts_data hsk'
      · rw [if_neg hsk'] at him
        rw [← him] at hk
        exact absurd (sameKey_iff.mpr hk) hsk'
  · rw [if_neg h]
    constructor
    · exact ⟨row, by simp, rfl⟩
    · intro g hg hk
      rcases List.mem_append.mp hg with hst | hrow
      · have hkg : sameKey g row = true := sameKey_iff.mpr hk
        exact absurd (List.any_eq_true.mpr ⟨g, hst, hkg⟩) h
      · have : g = row := by simpa using hrow
        rw [this]

lemma upsertOne_keyFixed_preserve {st : List FactRow} {row : FactRow}
    {d : FactData} (hne : row.data.key ≠ d.key) (h : keyFixed st d) :
    keyFixed (upsertOne st row) d := by
  obtain ⟨⟨f, hf, hfk⟩, hall⟩ := h
  have hnsk : sameKey f row = false := by
    apply Bool.eq_false_iff.mpr
    intro hb
    apply hne
    rw [← sameKey_iff.mp hb]
    exact hfk
  unfold upsertOne
  by_cases hany : st.any (fun f => sameKey f row) = true
  · rw [if_pos hany]
    refine ⟨⟨f, List.mem_map.mpr ⟨f, hf, by simp [hnsk]⟩, hfk⟩, ?_⟩
    intro g hg hgk
    obtain ⟨f', hf', him⟩ := List.mem_map.mp hg
    by_cases hsk' : sameKey f' row = true
    · rw [if_pos hsk'] at him
      have hgd : g.data = row.data := by
        rw [← him]
        exact overwriteCounts_data hsk'
      rw [hgd] at hgk
      exact absurd hgk hne
    · rw [if_neg hsk'] at him
      rw [← him] at hgk ⊢
      exact hall f' hf' hgk
  · rw [if_neg hany]
    refine ⟨⟨f, List.mem_append_left _ hf, hfk⟩, ?_⟩
    intro g hg hgk
    rcases List.mem_append.mp hg with hst | hrow
    · exact hall g hst hgk
    · have hgr : g = row := by simpa using hrow
      rw [hgr] at hgk
      exact absurd hgk hne

lemma upsertOne_data_noop {st : List FactRow} {row : FactRow}
    (h : keyFixed st row.data) :
    (upsertOne st row).map FactRow.data = st.map FactRow.data := by
  obtain ⟨⟨f, hf, hfk⟩, hall⟩ := h
  have hany : st.any (fun f => sameKey f row) = true :=
    List.any_eq_true.mpr ⟨f, hf, sameKey_iff.mpr hfk⟩
  unfold upsertOne
  rw [if_pos hany, List.map_map]
  apply List.map_congr_left
  intro a ha
  by_cases hsk : sameKey a row = true
  · simp only [Function.comp_apply, if_pos hsk]
    rw [overwriteCounts_data hsk]
    exact (hall a ha (sameKey_iff.mp hsk)).symm
  · simp only [Function.comp_apply, if_neg hsk]

lemma applyUpsert_keyFixed_preserve {d : FactData} :
    ∀ (rows : List FactRow) (st : List FactRow),
      (∀ r ∈ rows, r.data.key ≠ d.key) → keyFixed st d →
      keyFixed (applyUpsert st rows) d := by
  intro rows
  induction rows with
  | nil => intro st _ h; exact h
  | cons r rest ih =>
      intro st hne h
      exact ih (upsertOne st r)
        (fun r' hr' => hne r' (List.mem_cons_of_mem _ hr'))
        (upsertOne_keyFixed_preserve (hne r (List.mem_cons_self _ _)) h)

lemma applyUpsert_keyFixed :
    ∀ (rows : List FactRow) (st : List FactRow) (d : FactData),
      d ∈ rows.map FactRow.data →
      (rows.map (fun r => r.data.key)).Nodup →
      keyFixed (applyUpsert st rows) d := by
  intro rows
  induction rows with
  | nil => intro st d hd _; simp at hd
  | cons r rest ih =>
      intro st d hd hnd
      rw [List.map_cons] at hd hnd
      obtain ⟨hnotin, hnd'⟩ := List.nodup_cons.mp hnd
      rcases List.mem_cons.mp hd with heq | hmem
      · have hkf : keyFixed (upsertOne st r) d := heq ▸ upsertOne_keyFixed st r
        apply applyUpsert_keyFixed_preserve rest (upsertOne st r) ?_ hkf
        intro r' hr' hkeq
        apply hnotin
        rw [← heq, ← hkeq]
        exact List.mem_map_of_mem _ hr'
      · exact ih (upsertOne st r) d hmem hnd'

lemma applyUpsert_data_noop :
    ∀ (rows : List FactRow) (st : List FactRow),
      (∀ r ∈ rows, keyFixed st r.data) →
      (rows.map (fun r => r.data.key)).Nodup →
      (applyUpsert st rows).map FactRow.data = st.map FactRow.data := by
  intro rows
  induction rows with
  | nil => intro st _ _; rfl
  | cons r rest ih =>
      intro st hkf hnd
      rw [List.map_cons] at hnd
      obtain ⟨hnotin, hnd'⟩ := List.nodup_cons.mp hnd
      have h1 : (upsertOne st r).map FactRow.data = st.map FactRow.data :=
        upsertOne_data_noop (hkf r (List.mem_cons_self _ _))
      have h2 : ∀ r' ∈ rest, keyFixed (upsertOne st r) r'.data := by
        intro r' hr'
        apply upsertOne_keyFixed_preserve ?_ (hkf r' (List.mem_cons_of_mem _ hr'))
        intro hkeq
        apply hnotin
        rw [hkeq]
        exact List.mem_map_of_mem _ hr'
      calc (applyUpsert (upsertOne st r) rest).map FactRow.data
          = (upsertOne st r).map FactRow.data := ih (upsertOne st r) h2 hnd'
        _ = st.map FactRow.data := h1

lemma computeRows_now_congr {sz : Int} {fl : Int → Int} {w now₁ now₂ : Int}
    {events : List RawEvent}
    (h : eligibleEvents w now₁ events = eligibleEvents w now₂ events) :
    computeRows sz fl w now₁ events = computeRows sz fl w now₂ events := by
  unfold computeRows
  rw [h]

lemma computeRows_keys_nodup (sz : Int) (fl : Int → Int) (w now : Int)
    (events : List RawEvent) :
    ((computeRows sz fl w now events).map FactData.key).Nodup := by
  unfold computeRows
  rw [List.map_map]
  have hinj : Function.Injective
      (fun k : Int × Option String × Option String =>
        ((k.1, sz, k.2.1, k.2.2) : Int × Int × Option String × Option String)) := by
    intro a b hab
    obtain ⟨a1, a2, a3⟩ := a
    obtain ⟨b1, b2, b3⟩ := b
    simp only [Prod.mk.injEq] at hab
    simp only [Prod.mk.injEq]
    exact ⟨hab.1, hab.2.2.1, hab.2.2.2⟩
  exact List.Nodup.map hinj (List.nodup_dedup _)

/-- C6: running the Bucket Aggregator twice over the same lookback window
(the two runs select the same eligible raw events) yields identical
BucketFact data: every count field of every row is unchanged by the second
run, because an upsert that hits an existing
(bucket_start, bucket_size_seconds, line_id, stop_id) key overwrites all four
count fields with the freshly computed values rather than incrementing them;
only the created_at timestamp may differ between the runs. -/
theorem upsert_facts_idempotent :
    ∀ (sz w now₁ now₂ : Int) (events : List RawEvent)
      (store st₁ st₂ : List FactRow),
      eligibleEvents w now₁ events = eligibleEvents w now₂ events →
      upsert_facts sz w now₁ events store = .ok st₁ →
      upsert_facts sz w now₂ events st₁ = .ok st₂ →
      st₂.map FactRow.data = st₁.map FactRow.data := by
  intro sz w now₁ now₂ events store st₁ st₂ helig h₁ h₂
  unfold upsert_facts at h₁ h₂
  cases hbf : bucketFn sz with
  | none =>
      rw [hbf] at h₁
      exact absurd h₁ (by simp)
  | some fl =>
      rw [hbf] at h₁ h₂
      have h₁' : applyUpsert store ((computeRows sz fl w now₁ events).map
          (fun d => ({ data := d, created_at := now₁ } : FactRow))) = st₁ := by
        simpa using h₁
      have h₂' : applyUpsert st₁ ((computeRows sz fl w now₂ events).map
          (fun d => ({ data := d, created_at := now₂ } : FactRow))) = st₂ := by
        simpa using h₂
      rw [computeRows_now_congr helig.symm] at h₂'
      have hnd₁ : (((computeRows sz fl w now₁ events).map
          (fun d => ({ data := d, created_at := now₁ } : FactRow))).map
            (fun r => r.data.key)).Nodup := by
        rw [List.map_map]
        exact computeRows_keys_nodup sz fl w now₁ events
      have hnd₂ : (((computeRows sz fl w now₁ events).map
          (fun d => ({ data := d, created_at := now₂ } : FactRow))).map
            (fun r => r.data.key)).Nodup := by
        rw [List.map_map]
        exact computeRows_keys_nodup sz fl w now₁ events
      have hkf : ∀ r ∈ (computeRows sz fl w now₁ events).map
          (fun d => ({ data := d, created_at := now₂ } : FactRow)),
          keyFixed st₁ r.data := by
        intro r hr
        obtain ⟨d, hd, hrd⟩ := List.mem_map.mp hr
        rw [← h₁']
        apply applyUpsert_keyFixed _ store _ _ hnd₁
        rw [List.map_map]
        rw [← hrd]
        exact List.mem_map_of_mem _ hd
      calc st₂.map FactRow.data
          = (applyUpsert st₁ ((computeRows sz fl w now₁ events).map
              (fun d => ({ data := d, created_at := now₂ } : FactRow)))).map
                FactRow.data := by rw [h₂']
        _ = st₁.map FactRow.data := applyUpsert_data_noop _ st₁ hkf hnd₂

/-- C1: counterexample to batch/online feature equivalence.  For the
two-row corpus c1f0, c1f1 of station (A, S1) (one alert at t = 0 and one at
t = 60), the online as-of time is 60, which is exactly row c1f1 of the
corpus; yet the batch path computes alerts_sum_15m = 1 there (pandas
closed='left' window excludes the row's own bucket) while the online path
computes 2 (its SQL window is left-open right-closed and includes the as-of
bucket), so the twelve feature values are not bit-for-bit equal. -/
theorem create_features_online_divergence :
    (compute_features_online [c1f0, c1f1] "A" "S1").map
      (fun p => (p.1.alerts_sum_15m, p.2)) = some (2, 60) ∧
    (create_features_row [c1f0, c1f1] c1f1).alerts_sum_15m = some 1 ∧
    (create_features_row [c1f0, c1f1] c1f1).alerts_sum_15m ≠ some 2 := by
  decide

/-- C2: counterexample to the claimed window definition.  In the 20-minute
corpus (one bucket per minute, alerts_count = 1 only at minute 5) the batch
15-minute rolling alerts sum at the minute-20 row is 1, not 0 as the claim
states: create_features passes closed='left' to pandas rolling, so the
window is the left-closed right-open interval from t - 15min to t, which
still contains minute 5 at t = minute 20.  At the minute-10 row the value is
1 as claimed. -/
theorem rolling_window_divergence :
    (create_features_row corpus20 (c2row 20)).alerts_sum_15m = some 1 ∧
    (create_features_row corpus20 (c2row 10)).alerts_sum_15m = some 1 ∧
    (create_features_row corpus20 (c2row 20)).alerts_sum_15m ≠ some 0 := by
  decide

/-- C4: the batch feature key list and the serving FEATURE_ORDER consist of
the same twelve keys (they are a permutation of each other) but NOT in the
same order: get_feature_columns preserves the dataframe's column order
(base-table columns first, then the derived columns in insertion order)
while FEATURE_ORDER is alphabetical; already at index 1 they differ
(major_alerts_count versus alerts_sum_15m). -/
theorem feature_order_divergence :
    (get_feature_columns datasetColumns).Perm FEATURE_ORDER ∧
    get_feature_columns datasetColumns ≠ FEATURE_ORDER := by
  exact ⟨by decide, by decide⟩

lemma if_isEmpty_eq_one_iff (l : List FactData) :
    (if l.isEmpty then (0 : Nat) else 1) = 1 ↔ ∃ x, x ∈ l := by
  cases l <;> simp

/-- C5: create_label assigns label 1 to a row at time t exactly when some
row of the same (line_id, stop_id) group has alerts_count > 0 and
bucket_start in the left-open right-closed interval from t to t + 15 minutes
(rows of other groups cannot influence the label, since only same-group rows
are examined); and on the concrete corpus with buckets at minutes 0, 5, 10,
20 and one alert only at minute 10, the labels are 1, 1, 0, 0. -/
theorem create_label_correct :
    (∀ (df : List FactData) (r : FactData),
      create_label_row df r = 1 ↔
        ∃ s ∈ df, s.line_id = r.line_id ∧ s.stop_id = r.stop_id ∧
          0 < s.alerts_count ∧ r.bucket_start < s.bucket_start ∧
          s.bucket_start ≤ r.bucket_start + 900) ∧
    create_label labelCorpus = [1, 1, 0, 0] := by
  refine ⟨?_, by decide⟩
  intro df r
  simp only [create_label_row]
  rw [if_isEmpty_eq_one_iff]
  simp only [List.mem_filter, sameStation, Bool.and_eq_true, decide_eq_true_eq]
  constructor
  · rintro ⟨x, ⟨⟨hx, hline, hstop⟩, halert⟩, hlt, hle⟩
    exact ⟨x, hx, hline, hstop, halert, hlt, hle⟩
  · rintro ⟨s, hs, h1, h2, h3, h4, h5⟩
    exact ⟨s, ⟨⟨hs, h1, h2⟩, h3⟩, h4, h5⟩

/-- C7: compute_psi fails closed on degenerate inputs: it returns NaN
whenever either sample is empty, and returns exactly 0.0 whenever both
samples are non-empty and the baseline sample has zero variance (its
minimum equals its maximum), regardless of the current sample's values;
these outcomes are produced by early returns before any histogram or
logarithm is evaluated, and the function is total. -/
theorem compute_psi_degenerate :
    (∀ (actual : List ℚ) (bins : ℕ), compute_psi actual [] bins = PsiOutcome.nan) ∧
    (∀ (expected : List ℚ) (bins : ℕ), compute_psi [] expected bins = PsiOutcome.nan) ∧
    (∀ (a : ℚ) (as_ : List ℚ) (e : ℚ) (es : List ℚ) (bins : ℕ),
      sampleMin e es = sampleMax e es →
      compute_psi (a :: as_) (e :: es) bins = PsiOutcome.zero) := by
  refine ⟨?_, ?_, ?_⟩
  · intro actual bins
    cases actual <;> rfl
  · intro expected bins
    cases expected <;> rfl
  · intro a as_ e es bins h
    simp only [compute_psi]
    rw [if_pos h]

/-- Witness for compute_psi_degenerate: the baseline [3, 3] is constant, so
compute_psi [5] [3, 3] 10 = 0.0 even though the current sample lies far
outside the baseline range. -/
theorem compute_psi_degenerate_witness :
    sampleMin (3 : ℚ) [3] = sampleMax 3 [3] ∧
    compute_psi [5] [3, 3] 10 = PsiOutcome.zero :=
  ⟨by decide, compute_psi_degenerate.2.2 5 [] 3 [3] 10 (by decide)⟩

/-- C3 counterexample: the Bucket Aggregator does NOT exclude the group
whose key has both line_id and stop_id null.  A raw event with both null
(nullKeyEvent, at ts = 500 inside the lookback window) produces exactly one
BucketFact row, and that row's line_id and stop_id are both null. -/
theorem aggregator_null_key_counterexample :
    upsert_facts 60 10 600 [nullKeyEvent] [] = .ok [nullKeyFact] ∧
    nullKeyFact.data.line_id = none ∧ nullKeyFact.data.stop_id = none :=
  ⟨rfl, rfl, rfl⟩

/-- C3 amended: the feature pipeline never emits a row whose line_id and
stop_id are both null — load_facts drops such rows before any FeatureVector
is computed — even though the aggregator itself does store them. -/
theorem load_facts_null_key_excluded :
    ∀ (rows : List FactData) (f : FactData), f ∈ load_facts rows →
      ¬(f.line_id = none ∧ f.stop_id = none) := by
  intro rows f hf hcontra
  simp only [load_facts, List.mem_filter] at hf
  obtain ⟨-, hnull⟩ := hf
  rw [hcontra.1, hcontra.2] at hnull
  simp at hnull

/-- Witness for load_facts_null_key_excluded at the concrete row keyedFact,
which load_facts keeps. -/
theorem load_facts_null_key_excluded_witness :
    ¬(keyedFact.line_id = none ∧ keyedFact.stop_id = none) :=
  load_facts_null_key_excluded [keyedFact] keyedFact (by decide)

/-- C8 counterexample: the aggregation query has no upper bound on
event_ts, so an event whose event_ts equals now (eventAtNow at ts = 600
with now = 600) IS aggregated, contradicting the claimed half-open interval
that excludes events at or after now. -/
theorem aggregator_window_counterexample :
    upsert_facts 60 1 600 [eventAtNow] [] =
      .ok [⟨⟨600, 60, some "A", some "S1", 1, 0, 0, 0⟩, 600⟩] ∧
    eventAtNow.event_ts = 600 :=
  ⟨rfl, rfl⟩

/-- C8 amended: upsert_facts aggregates exactly the RawEvents with
event_ts at or after now - lookback, with NO upper bound (an event at or
after now is included when present); the bucket key for width 60 is
per-minute truncation and for width 300 alignment to 5-minute boundaries
anchored at the Unix epoch (in both cases the unique width-multiple b with
b ≤ ts < b + width); and any other width fails with the invalid-argument
error regardless of the store and events, i.e. before touching the store. -/
theorem aggregator_window_amended :
    (∀ (w now : Int) (events : List RawEvent) (e : RawEvent),
      e ∈ eligibleEvents w now events ↔
        e ∈ events ∧ now - 60 * w ≤ e.event_ts) ∧
    (∀ (ts : Int) (fl : Int → Int), bucketFn 60 = some fl →
      fl ts = ts - ts % 60 ∧ fl ts ≤ ts ∧ ts < fl ts + 60 ∧ (60 : Int) ∣ fl ts) ∧
    (∀ (ts : Int) (fl : Int → Int), bucketFn 300 = some fl →
      fl ts = ts - ts % 300 ∧ fl ts ≤ ts ∧ ts < fl ts + 300 ∧ (300 : Int) ∣ fl ts) ∧
    (∀ sz : Int, sz ≠ 60 → sz ≠ 300 →
      ∀ (w now : Int) (events : List RawEvent) (store : List FactRow),
        upsert_facts sz w now events store =
          .error "Unsupported bucket_size_seconds. Must be 60 or 300.") := by
  refine ⟨?_, ?_, ?_, ?_⟩
  · intro w now events e
    simp [eligibleEvents, List.mem_filter]
  · intro ts fl hfl
    have hfl' : (fun ts => 60 * Int.fdiv ts 60) = fl := by
      simpa [bucketFn] using hfl
    rw [← hfl']
    show 60 * Int.fdiv ts 60 = ts - ts % 60 ∧ 60 * Int.fdiv ts 60 ≤ ts ∧
      ts < 60 * Int.fdiv ts 60 + 60 ∧ (60 : Int) ∣ 60 * Int.fdiv ts 60
    rw [Int.fdiv_eq_ediv _ (by norm_num)]
    refine ⟨by omega, by omega, by omega, dvd_mul_right 60 _⟩
  · intro ts fl hfl
    have hfl' : (fun ts => 300 * Int.fdiv ts 300) = fl := by
      simpa [bucketFn] using hfl
    rw [← hfl']
    show 300 * Int.fdiv ts 300 = ts - ts % 300 ∧ 300 * Int.fdiv ts 300 ≤ ts ∧
      ts < 300 * Int.fdiv ts 300 + 300 ∧ (300 : Int) ∣ 300 * Int.fdiv ts 300
    rw [Int.fdiv_eq_ediv _ (by norm_num)]
    refine ⟨by omega, by omega, by omega, dvd_mul_right 300 _⟩
  · intro sz h60 h300 w now events store
    have hb : bucketFn sz = none := by
      unfold bucketFn
      rw [if_neg h60, if_neg h300]
    unfold upsert_facts
    rw [hb]

/-- Witness for aggregator_window_amended: the 60-second bucket facts at
ts = 123, and the invalid-argument failure at width 90. -/
theorem aggregator_window_amended_witness :
    ((60 : Int) * Int.fdiv 123 60 = 123 - 123 % 60 ∧
      (60 : Int) * Int.fdiv 123 60 ≤ 123 ∧
      (123 : Int) < 60 * Int.fdiv 123 60 + 60 ∧
      (60 : Int) ∣ 60 * Int.fdiv 123 60) ∧
    upsert_facts 90 5 1000 [] [] =
      .error "Unsupported bucket_size_seconds. Must be 60 or 300." :=
  ⟨aggregator_window_amended.2.1 123 _ rfl,
   aggregator_window_amended.2.2.2 90 (by decide) (by decide) 5 1000 [] []⟩

lemma statusOf_append_set (runs : List RunStatus) (s : RunStatus) (rid : Nat) :
    statusOf ⟨(runs ++ [RunStatus.running]).set runs.length s⟩ rid =
      if rid = runs.length then some s else statusOf ⟨runs⟩ rid := by
  have hset : (runs ++ [RunStatus.running]).set runs.length s = runs ++ [s] := by
    rw [List.set_append]
    simp
  rw [hset]
  by_cases hr : rid = runs.length
  · rw [if_pos hr, hr]
    simp [statusOf]
  · rw [if_neg hr]
    rcases Nat.lt_or_ge rid runs.length with hlt | hge
    · simp [statusOf, List.getElem?_append_left hlt]
    · have hgt : runs.length < rid := lt_of_le_of_ne hge (fun hh => hr hh.symm)
      have h1 : (runs ++ [s])[rid]? = none :=
        List.getElem?_eq_none (by simp; omega)
      have h2 : runs[rid]? = none := List.getElem?_eq_none (by omega)
      simp [statusOf, h1, h2]

/-- C9: every run that an ingest_once invocation touches ends in a terminal
status.  Whatever the configuration, the body's outcome and the initial
ledger, if the final ledger differs from the initial one at some run_id,
then that run's final status is 'success' or 'failed' — never 'running':
the configuration checks precede start_run, the normal path ends with
finish_run 'success', and the exception path ends with finish_run 'failed'
before the exception is re-raised. -/
theorem ingest_once_terminal :
    ∀ (env : IngestEnv) (body : Except String Nat) (st : LedgerState)
      (res : Except String Nat) (stF : LedgerState),
      ingest_once env body st = (res, stF) →
      ∀ rid, statusOf stF rid ≠ statusOf st rid →
        statusOf stF rid = some RunStatus.success ∨
        statusOf stF rid = some RunStatus.failed := by
  intro env body st res stF h rid hne
  unfold ingest_once at h
  by_cases h1 : env.service_alerts_url = none
  · rw [if_pos h1] at h
    cases h
    exact absurd rfl hne
  · rw [if_neg h1] at h
    by_cases h2 : env.realtime_urls = []
    · rw [if_pos h2] at h
      cases h
      exact absurd rfl hne
    · rw [if_neg h2] at h
      cases body with
      | ok n =>
          simp only [start_run, finish_run] at h
          cases h
          by_cases hr : rid = st.runs.length
          · left
            rw [statusOf_append_set, if_pos hr]
          · exfalso
            apply hne
            rw [statusOf_append_set, if_neg hr]
      | error e =>
          simp only [start_run, finish_run] at h
          cases h
          by_cases hr : rid = st.runs.length
          · right
            rw [statusOf_append_set, if_pos hr]
          · exfalso
            apply hne
            rw [statusOf_append_set, if_neg hr]

/-- Witness for ingest_once_terminal: a configured environment, a
successful body and an empty ledger; the created run 0 ends with status
'success'. -/
theorem ingest_once_terminal_witness :
    statusOf ⟨[RunStatus.success]⟩ 0 = some RunStatus.success ∨
    statusOf ⟨[RunStatus.success]⟩ 0 = some RunStatus.failed :=
  ingest_once_terminal ⟨some "u", ["v"]⟩ (.ok 3) ⟨[]⟩ (.ok 3)
    ⟨[RunStatus.success]⟩ rfl 0 (by decide)

/-- C10: for every entity parse_feed emits, an identifier extracted from
the feed as the empty string is normalized to a null field: the emitted
line_id, stop_id and trip_id are never the empty string, an extracted empty
string yields none, and the result is indistinguishable from the identifier
being absent (normalizeId maps the empty string and None to the same
value). -/
theorem parse_feed_empty_string_null :
    ∀ (p : EntityPayload) (raw ids : ParsedIds),
      extractIds p = some raw → parse_entity_ids p = some ids →
      (raw.line_id = some "" → ids.line_id = none) ∧
      (raw.stop_id = some "" → ids.stop_id = none) ∧
      (raw.trip_id = some "" → ids.trip_id = none) ∧
      ids.line_id ≠ some "" ∧ ids.stop_id ≠ some "" ∧ ids.trip_id ≠ some "" ∧
      normalizeId (some "") = normalizeId none := by
  have hnm : ∀ o : Option String, normalizeId o ≠ some "" := by
    intro o
    cases o with
    | none => simp [normalizeId]
    | some s =>
        by_cases hs : s = ""
        · simp [normalizeId, hs]
        · simp [normalizeId, hs]
  intro p raw ids hraw hids
  rw [parse_entity_ids, hraw] at hids
  simp only [Option.map_some'] at hids
  cases hids
  refine ⟨?_, ?_, ?_, hnm _, hnm _, hnm _, rfl⟩
  · intro hl
    simp [hl, normalizeId]
  · intro hl
    simp [hl, normalizeId]
  · intro hl
    simp [hl, normalizeId]

/-- Witness for parse_feed_empty_string_null: a trip-update entity whose
route_id and first stop_id are present but empty; the emitted record has
null line_id and stop_id and keeps trip_id T1. -/
theorem parse_feed_empty_string_null_witness :
    (tuRawIds.line_id = some "" → tuIds.line_id = none) ∧
    (tuRawIds.stop_id = some "" → tuIds.stop_id = none) ∧
    (tuRawIds.trip_id = some "" → tuIds.trip_id = none) ∧
    tuIds.line_id ≠ some "" ∧ tuIds.stop_id ≠ some "" ∧
    tuIds.trip_id ≠ some "" ∧
    normalizeId (some "") = normalizeId none :=
  parse_feed_empty_string_null tuPayload tuRawIds tuIds (by decide) (by decide)

/-- Witness for upsert_facts_idempotent: one trip-update event at ts = 950,
aggregated at now = 1000 into an empty store and re-aggregated at
now = 1060; the two windows select the same events and the second run
reproduces the same fact data (only created_at differs). -/
theorem upsert_facts_idempotent_witness :
    ([⟨⟨900, 60, some "A", some "S1", 0, 0, 1, 0⟩, 1060⟩] : List FactRow).map
        FactRow.data =
      ([⟨⟨900, 60, some "A", some "S1", 0, 0, 1, 0⟩, 1000⟩] : List FactRow).map
        FactRow.data :=
  upsert_facts_idempotent 60 10 1000 1060 [w6event] []
    [⟨⟨900, 60, some "A", some "S1", 0, 0, 1, 0⟩, 1000⟩]
    [⟨⟨900, 60, some "A", some "S1", 0, 0, 1, 0⟩, 1060⟩]
    (by decide) rfl rfl
